import Mathlib

/-!
Verification of the optical-modem restart monitor.

A shallow embedding of the health-tracking and restart-orchestration state
machine of `src/index.ts` (classes `ModemUtil` and `App`), together with
theorems about the properties stated in the design specification.

Conventions of the embedding:
* JavaScript numbers holding millisecond delays, scores and configuration
  values are modelled as `Int` (the code performs only integer arithmetic on
  them; `currentBadCount -= goodReduce` can in fact go below zero, which
  `Int` represents faithfully).
* `Number.POSITIVE_INFINITY`, returned by `checkingDelay` when the probe
  `fetch` throws, is modelled by a dedicated constructor of `ProbeResult`
  that compares greater than every finite threshold.
* The cooperative single-threaded event loop is modelled by atomic events:
  a probe-interval tick (which fires only while the checking interval is
  armed) and a daily-restart timer firing.  The outcome of the asynchronous
  `modemUtil.restart()` call is an oracle `Bool` carried by the event
  (`true` = the promise resolved, `false` = it rejected).
* `fetch` responses seen by `ModemUtil` are modelled by `FetchResult`; the
  vendor-page regex extractions are abstract parameters (`String → Option
  String`), with `none` modelling a non-matching page (the `null[1]`
  `TypeError` path) — the properties to verify about `ModemUtil` concern
  only its error flow, not the vendor page format.
-/

set_option autoImplicit false

/-- Result of one health probe (`App.checkingDelay`): either the measured
round-trip time in milliseconds, or `failed`, standing for the
`Number.POSITIVE_INFINITY` returned when the probe `fetch` throws. -/
inductive ProbeResult where
  | ok (delay : Int)
  | failed
deriving DecidableEq, Repr

/-- The comparison `delay > this.config.expectedDelay` of `App.checking`;
`failed` (infinity) compares greater than every finite threshold. -/
def ProbeResult.isBad : ProbeResult → Int → Bool
  | .failed, _ => true
  | .ok d, expected => d > expected

/-- The scoring-relevant part of `IAppConfig` (the remaining fields are
connection parameters and timer periods that the scoring logic never
reads). -/
structure AppConfig where
  expectedDelay : Int
  maxBadCount : Int
  badIncrease : Int
  goodReduce : Int
deriving DecidableEq, Repr

/-- The defaults applied in the `App` constructor. -/
def defaultConfig : AppConfig :=
  { expectedDelay := 800, maxBadCount := 10, badIncrease := 2, goodReduce := 1 }

/-- The mutable fields of `App`: the bad-score accumulator
`currentBadCount`, the `isRestarting` guard, and the presence of the
checking-interval handle (`checkingIntervalHandler !== null`). -/
structure AppState where
  currentBadCount : Int
  isRestarting : Bool
  checkingActive : Bool
deriving DecidableEq, Repr

/-- The state of `App` right after `run()` has started checking:
`currentBadCount = 0`, `isRestarting = false`, interval armed. -/
def initialState : AppState :=
  { currentBadCount := 0, isRestarting := false, checkingActive := true }

/-- The body of the `setInterval` callback in `App.checking`, minus the call
to `onBadChecked` (returned as the `Bool` component: `true` iff the tick
reached `this.onBadChecked()`).  Mirrors the source line by line: on a bad
delay, an `isRestarting` tick returns untouched, otherwise the count grows
by `badIncrease` and is reset to `0` when it reaches `maxBadCount`; on a
good delay, `isRestarting` is cleared and a strictly positive count is
decremented by `goodReduce` (with no lower clamp). -/
def checkingTickBody (cfg : AppConfig) (s : AppState) (r : ProbeResult) :
    AppState × Bool :=
  if r.isBad cfg.expectedDelay then
    if s.isRestarting then
      (s, false)
    else
      let b := s.currentBadCount + cfg.badIncrease
      if b ≥ cfg.maxBadCount then
        ({ s with currentBadCount := 0 }, true)
      else
        ({ s with currentBadCount := b }, false)
  else
    let s1 := if s.isRestarting then { s with isRestarting := false } else s
    if s1.currentBadCount > 0 then
      ({ s1 with currentBadCount := s1.currentBadCount - cfg.goodReduce }, false)
    else
      (s1, false)

/-- `App.stopChecking`: only when a handle is present, clear it and reset
`currentBadCount` to `0`. -/
def stopChecking (s : AppState) : AppState :=
  if s.checkingActive then
    { s with checkingActive := false, currentBadCount := 0 }
  else
    s

/-- `App.startChecking`: idempotent arming of the checking interval. -/
def startChecking (s : AppState) : AppState :=
  if s.checkingActive then s else { s with checkingActive := true }

/-- `App.restartModem` with the outcome of `modemUtil.restart()` supplied by
the oracle `restartOk`.  Returns the new state together with `true` iff
`modemUtil.restart()` was actually invoked.  When `isRestarting` is already
set the method returns at once; otherwise it sets the flag, invokes the
device restart, and clears the flag again in the `catch` branch when the
call rejects.  -/
def restartModem (s : AppState) (restartOk : Bool) : AppState × Bool :=
  if s.isRestarting then
    (s, false)
  else if restartOk then
    ({ s with isRestarting := true }, true)
  else
    ({ s with isRestarting := false }, true)

/-- `App.onBadChecked` (also the body of the daily timer callback, which
runs the same stop / restart / resume sequence): stop checking, run
`restartModem`, and — the `.then` continuation, which runs whether the
restart promise resolved or rejected, since `restartModem` catches — start
checking again.  The `Bool` component records whether the device restart
was invoked. -/
def onBadChecked (s : AppState) (restartOk : Bool) : AppState × Bool :=
  let s1 := stopChecking s
  let p := restartModem s1 restartOk
  (startChecking p.1, p.2)

/-- An atomic event of the single-threaded loop: a probe tick (carrying the
probe result and the restart-outcome oracle used if this tick triggers a
restart), or a firing of the daily-restart timer (carrying its oracle). -/
inductive Event where
  | probe (r : ProbeResult) (restartOk : Bool)
  | daily (restartOk : Bool)
deriving DecidableEq, Repr

/-- One event of the loop.  A probe tick fires only while the checking
interval is armed; when the score of the tick reaches the ceiling it continues
into `onBadChecked`.  A daily firing runs the stop / restart / resume
sequence of the `setTimeout` callback in `registerRestartEveryDay`. -/
def step (cfg : AppConfig) (s : AppState) : Event → AppState
  | .probe r restartOk =>
    if s.checkingActive then
      let p := checkingTickBody cfg s r
      if p.2 then (onBadChecked p.1 restartOk).1 else p.1
    else
      s
  | .daily restartOk => (onBadChecked s restartOk).1

/-- Runs a sequence of events from a state. -/
def runSteps (cfg : AppConfig) (s : AppState) (es : List Event) : AppState :=
  es.foldl (step cfg) s

/-- Milliseconds in one day, the granularity of `setDate(getDate() + 1)`. -/
def msPerDay : Int := 86400000

/-- `String.prototype.split` on a one-character separator, over the
character list of the string. -/
def splitCore (sep : Char) : List Char → List (List Char)
  | [] => [[]]
  | c :: cs =>
    match splitCore sep cs with
    | [] => [[c]]
    | g :: gs => if c = sep then [] :: g :: gs else (c :: g) :: gs

/-- `time.split(":")`. -/
def splitOnColon (s : String) : List String :=
  (splitCore ':' s.data).map (fun cs => String.mk cs)

/-- `Number.parseInt(v, 10)` on a well-formed decimal numeral. -/
def parseDec (cs : List Char) : Nat :=
  cs.foldl (fun acc c => acc * 10 + (c.toNat - 48)) 0

/-- `App.parseDate`: split the configured `"HH:MM[:SS]"` string on `":"`,
parse the pieces, and default the seconds to `0` when absent (the
`second !== undefined` check).  The date portion is irrelevant — only the
hours, minutes and seconds are read back later — so the result is the
time-of-day triple. -/
def parseDate (time : String) : Int × Int × Int :=
  let parts := (splitOnColon time).map (fun v => (parseDec v.data : Int))
  match parts with
  | [hour, minute] => (hour, minute, 0)
  | [hour, minute, second] => (hour, minute, second)
  | _ => (0, 0, 0)

/-- The millisecond offset within a day of a time-of-day triple (the
`setHours` / `setMinutes` / `setSeconds` / `setMilliseconds(0)` sequence
applied to a date). -/
def timeOfDayMs (t : Int × Int × Int) : Int :=
  t.1 * 3600000 + t.2.1 * 60000 + t.2.2 * 1000

/-- The next-firing computation of `App.registerRestartEveryDay`.  An
instant is a count of milliseconds, `day * msPerDay + msOfDay`.  The code
builds `nextRestartTime` by stamping the configured time-of-day onto the
current day, and rolls it forward by one day when it is not strictly after
`now` (`nextRestartTime.getTime() <= now.getTime()`). -/
def computeNext (nowDay nowMs targetMs : Int) : Int :=
  let cand := nowDay * msPerDay + targetMs
  let now := nowDay * msPerDay + nowMs
  if cand ≤ now then cand + msPerDay else cand

/-- `App.registerRestartEveryDay` as the instant it arms its one-shot timer
for: `none` when no daily-restart time is configured (the early return on
`restartEveryDayDate === null`), otherwise the `computeNext` instant. -/
def registerRestartEveryDay (restartDate : Option Int) (nowDay nowMs : Int) :
    Option Int :=
  restartDate.map (fun targetMs => computeNext nowDay nowMs targetMs)

/-- The body of the daily timer callback in `App.registerRestartEveryDay`:
stop checking, run `restartModem` with `startChecking` as its `.then`
continuation, and re-arm via `registerRestartEveryDay` — the re-arm call is
unconditional in the callback, issued whatever `restartModem` did.  Returns
the new state and the re-armed instant. -/
def dailyFire (s : AppState) (restartOk : Bool) (restartDate : Option Int)
    (nowDay nowMs : Int) : AppState × Option Int :=
  ((onBadChecked s restartOk).1, registerRestartEveryDay restartDate nowDay nowMs)

/-- The `protocol` union of `IModemUtilOptions`. -/
inductive Protocol where
  | http
  | https
deriving DecidableEq, Repr

/-- Scheme string of a protocol, as it appears in a formatted URL. -/
def Protocol.scheme : Protocol → String
  | .http => "http"
  | .https => "https"

/-- `IModemUtilOptions` as passed to the `ModemUtil` constructor: `port`
and `protocol` are optional. -/
structure IModemUtilOptions where
  username : String
  password : String
  ip : String
  port : Option Int
  protocol : Option Protocol
deriving DecidableEq, Repr

/-- The options record after the `ModemUtil` constructor has run: every
field resolved to a concrete value. -/
structure ResolvedOptions where
  username : String
  password : String
  ip : String
  port : Int
  protocol : Protocol
deriving DecidableEq, Repr

/-- The `ModemUtil` constructor: spreads the incoming options, then
overwrites `protocol` with `options.protocol || "http"` and `port` with
`options.protocol === "https" ? 443 : 80`.  Both overwrites are
unconditional, so the resolved `port` is computed from the protocol alone
and any `port` supplied in the options is discarded. -/
def ModemUtil.resolveOptions (o : IModemUtilOptions) : ResolvedOptions :=
  { username := o.username
    password := o.password
    ip := o.ip
    protocol := o.protocol.getD .http
    port := if o.protocol = some .https then 443 else 80 }

/-- `url.format` on the option bags built by the `ModemUtil` methods:
scheme, host, port, then the path and the (already `?`-prefixed) search
string, either of which may be empty. -/
def formatUrl (protocol : Protocol) (hostname : String) (port : Int)
    (pathname search : String) : String :=
  protocol.scheme ++ "://" ++ hostname ++ ":" ++ toString port ++ pathname ++ search

/-- URL of the `GET` in `getFrmLoginToken` (and of the `POST` in
`postLogin`): the device root, no path. -/
def loginPageUrl (o : ResolvedOptions) : String :=
  formatUrl o.protocol o.ip o.port "" ""

/-- URL of the `GET` in `getSessionToken`. -/
def sessionTokenUrl (o : ResolvedOptions) : String :=
  formatUrl o.protocol o.ip o.port "/web/cmcc/gch/template_user.gch" ""

/-- URL of the `POST` in `postRestart`, with the stringified query. -/
def restartCommandUrl (o : ResolvedOptions) : String :=
  formatUrl o.protocol o.ip o.port "/web/cmcc/gch/getpage.gch"
    "?pid=1002&nextpage=web%2Fcmcc%2Fgch%2Fiot_advance_setting_t.gch"

/-- What one `fetch` in `ModemUtil` returns: a response body, or a thrown
network-level error (timeout, DNS failure, connection refused, abort). -/
inductive FetchResult where
  | ok (body : String)
  | networkError (msg : String)
deriving DecidableEq, Repr

/-- The responses the device serves to the four network calls of one
`ModemUtil.restart()` run. -/
structure ModemEnv where
  loginPage : FetchResult
  loginPost : FetchResult
  sessionPage : FetchResult
  restartPost : FetchResult
deriving DecidableEq, Repr

/-- An `await fetch(...)` step: a network error is a thrown exception,
modelled by `Except.error`. -/
def fetchStep : FetchResult → Except String String
  | .ok body => .ok body
  | .networkError msg => .error msg

/-- `ModemUtil.getFrmLoginToken`: `GET` the login page; an empty body is an
explicit `throw`, and a body the `Frm_Logintoken` regex does not match
makes `html.match(...)[1]` throw a `TypeError` (`extract` returning `none`
models the non-matching page). -/
def getFrmLoginToken (extract : String → Option String) (resp : FetchResult) :
    Except String String := do
  let html ← fetchStep resp
  if html = "" then
    throw "Get Frm_Logintoken failed: empty response."
  else
    match extract html with
    | none => throw "TypeError: html.match is null"
    | some token => pure token

/-- `ModemUtil.postLogin`: `POST` the credentials and the login token; the
response body is ignored, but a network-level failure propagates. -/
def postLogin (frmLoginToken : String) (resp : FetchResult) :
    Except String Unit := do
  let _ ← fetchStep resp
  pure ()

/-- `ModemUtil.getSessionToken`: like `getFrmLoginToken`, against the
template page, extracting `session_token`. -/
def getSessionToken (extract : String → Option String) (resp : FetchResult) :
    Except String String := do
  let html ← fetchStep resp
  if html = "" then
    throw "Get session_token failed: empty response."
  else
    match extract html with
    | none => throw "TypeError: html.match is null"
    | some token => pure token

/-- `ModemUtil.postRestart`: `POST` the restart command with a 1000 ms
abort signal, inside a try with an empty catch handler — every thrown
error (the expected timeout or dropped connection included) is swallowed,
so the step always succeeds. -/
def postRestart (sessionToken : String) (resp : FetchResult) :
    Except String Unit :=
  match fetchStep resp with
  | .ok _ => .ok ()
  | .error _ => .ok ()

/-- `ModemUtil.restart`: login-token, login, session-token, then the
fire-and-forget restart command; each step awaited in order, any thrown
error propagating to the caller. -/
def ModemUtil.restart (extractLogin extractSession : String → Option String)
    (env : ModemEnv) : Except String Unit := do
  let frmLoginToken ← getFrmLoginToken extractLogin env.loginPage
  postLogin frmLoginToken env.loginPost
  let sessionToken ← getSessionToken extractSession env.sessionPage
  postRestart sessionToken env.restartPost

/-- `true` iff the step did not throw. -/
def exceptOk {α : Type} : Except String α → Bool
  | .ok _ => true
  | .error _ => false

/-- A configuration whose good-sample decrement exceeds its bad-sample
increment (`badIncrease = 1`, `goodReduce = 2`), legal under `IAppConfig`. -/
def cxConfigC1 : AppConfig :=
  { expectedDelay := 800, maxBadCount := 10, badIncrease := 1, goodReduce := 2 }

/-- A configuration with `badIncrease = 3` and `goodReduce = 5`, legal under
`IAppConfig`. -/
def cxConfigC5 : AppConfig :=
  { expectedDelay := 800, maxBadCount := 10, badIncrease := 3, goodReduce := 5 }

/-- Construction options carrying an explicit `port` and no `protocol`. -/
def portBugOptions : IModemUtilOptions :=
  { username := "user", password := "000000", ip := "192.168.1.1",
    port := some 8080, protocol := none }

/-- Five consecutive bad probes under the default configuration: enough to
trigger a restart, leaving `isRestarting = true`. -/
def restartingTrace : List Event :=
  List.replicate 5 (Event.probe (ProbeResult.ok 2000) true)

lemma onBadChecked_fst (s : AppState) (o : Bool) :
    (onBadChecked s o).1 =
      { currentBadCount := if s.checkingActive then 0 else s.currentBadCount
        isRestarting := if s.isRestarting then true else o
        checkingActive := true } := by
  cases s with
  | mk c ir ca => cases ir <;> cases ca <;> cases o <;> rfl

lemma onBadChecked_snd (s : AppState) (o : Bool) :
    (onBadChecked s o).2 = !s.isRestarting := by
  cases s with
  | mk c ir ca => cases ir <;> cases ca <;> cases o <;> rfl

lemma checkingTickBody_bad_restarting (cfg : AppConfig) (s : AppState)
    (r : ProbeResult) (hb : r.isBad cfg.expectedDelay = true)
    (hi : s.isRestarting = true) :
    checkingTickBody cfg s r = (s, false) := by
  simp [checkingTickBody, hb, hi]

lemma checkingTickBody_bad_idle (cfg : AppConfig) (s : AppState)
    (r : ProbeResult) (hb : r.isBad cfg.expectedDelay = true)
    (hi : s.isRestarting = false) :
    checkingTickBody cfg s r =
      if s.currentBadCount + cfg.badIncrease ≥ cfg.maxBadCount then
        ({ s with currentBadCount := 0 }, true)
      else
        ({ s with currentBadCount := s.currentBadCount + cfg.badIncrease }, false) := by
  simp [checkingTickBody, hb, hi]

lemma checkingTickBody_good (cfg : AppConfig) (s : AppState)
    (r : ProbeResult) (hb : r.isBad cfg.expectedDelay = false) :
    checkingTickBody cfg s r =
      (if 0 < s.currentBadCount then
        { currentBadCount := s.currentBadCount - cfg.goodReduce
          isRestarting := false
          checkingActive := s.checkingActive }
       else
        { currentBadCount := s.currentBadCount
          isRestarting := false
          checkingActive := s.checkingActive }, false) := by
  cases s with
  | mk c ir ca =>
    cases ir <;> simp [checkingTickBody, hb] <;> split <;> rfl

lemma step_probe_inactive (cfg : AppConfig) (s : AppState) (r : ProbeResult)
    (o : Bool) (ha : s.checkingActive = false) :
    step cfg s (.probe r o) = s := by
  simp [step, ha]



lemma step_daily (cfg : AppConfig) (s : AppState) (o : Bool) :
    step cfg s (.daily o) =
      { currentBadCount := if s.checkingActive then 0 else s.currentBadCount
        isRestarting := if s.isRestarting then true else o
        checkingActive := true } := by
  simp only [step, onBadChecked_fst]

lemma step_probe_bad_restarting (cfg : AppConfig) (s : AppState)
    (r : ProbeResult) (o : Bool) (ha : s.checkingActive = true)
    (hb : r.isBad cfg.expectedDelay = true) (hi : s.isRestarting = true) :
    step cfg s (.probe r o) = s := by
  simp [step, ha, checkingTickBody_bad_restarting cfg s r hb hi]

lemma step_probe_bad_idle (cfg : AppConfig) (s : AppState)
    (r : ProbeResult) (o : Bool) (ha : s.checkingActive = true)
    (hb : r.isBad cfg.expectedDelay = true) (hi : s.isRestarting = false) :
    step cfg s (.probe r o) =
      if s.currentBadCount + cfg.badIncrease >= cfg.maxBadCount then
        { currentBadCount := 0, isRestarting := o, checkingActive := true }
      else
        { currentBadCount := s.currentBadCount + cfg.badIncrease
          isRestarting := false
          checkingActive := true } := by
  simp only [step, ha, if_true, checkingTickBody_bad_idle cfg s r hb hi]
  by_cases hc : s.currentBadCount + cfg.badIncrease >= cfg.maxBadCount
  case pos =>
    simp only [if_pos hc]
    simp [onBadChecked_fst, ha, hi]
  case neg =>
    simp only [if_neg hc]
    simp [ha, hi]

lemma step_probe_good (cfg : AppConfig) (s : AppState)
    (r : ProbeResult) (o : Bool) (ha : s.checkingActive = true)
    (hb : r.isBad cfg.expectedDelay = false) :
    step cfg s (.probe r o) =
      if 0 < s.currentBadCount then
        { currentBadCount := s.currentBadCount - cfg.goodReduce
          isRestarting := false
          checkingActive := true }
      else
        { currentBadCount := s.currentBadCount
          isRestarting := false
          checkingActive := true } := by
  simp only [step, ha, if_true, checkingTickBody_good cfg s r hb]
  simp [ha]

lemma runSteps_invariant (cfg : AppConfig) (P : AppState → Prop)
    (hstep : ∀ s e, P s → P (step cfg s e)) :
    ∀ (es : List Event) (s : AppState), P s → P (runSteps cfg s es) := by
  intro es
  induction es with
  | nil => intro s h; exact h
  | cons e es ih =>
    intro s h
    exact ih (step cfg s e) (hstep s e h)

lemma step_bounds (cfg : AppConfig) (hmax : 0 < cfg.maxBadCount)
    (hinc : 0 ≤ cfg.badIncrease) (hred : 1 ≤ cfg.goodReduce)
    (s : AppState) (e : Event)
    (h : 1 - cfg.goodReduce ≤ s.currentBadCount ∧ s.currentBadCount < cfg.maxBadCount) :
    1 - cfg.goodReduce ≤ (step cfg s e).currentBadCount ∧
      (step cfg s e).currentBadCount < cfg.maxBadCount := by
  obtain ⟨hl, hr⟩ := h
  cases e with
  | probe r o =>
    cases ha : s.checkingActive with
    | false => rw [step_probe_inactive cfg s r o ha]; exact ⟨hl, hr⟩
    | true =>
      cases hb : r.isBad cfg.expectedDelay with
      | false =>
        rw [step_probe_good cfg s r o ha hb]
        split <;> constructor <;> simp <;> omega
      | true =>
        cases hi : s.isRestarting with
        | true =>
          rw [step_probe_bad_restarting cfg s r o ha hb hi]
          exact ⟨hl, hr⟩
        | false =>
          rw [step_probe_bad_idle cfg s r o ha hb hi]
          split <;> constructor <;> simp <;> omega
  | daily o =>
    rw [step_daily]
    constructor <;> simp <;> split <;> omega

lemma step_restartZero (cfg : AppConfig) (s : AppState) (e : Event)
    (h : (s.isRestarting = true → s.currentBadCount = 0) ∧
         (s.checkingActive = false → s.currentBadCount = 0)) :
    ((step cfg s e).isRestarting = true → (step cfg s e).currentBadCount = 0) ∧
      ((step cfg s e).checkingActive = false → (step cfg s e).currentBadCount = 0) := by
  obtain ⟨h1, h2⟩ := h
  cases e with
  | probe r o =>
    cases ha : s.checkingActive with
    | false => rw [step_probe_inactive cfg s r o ha]; exact ⟨h1, h2⟩
    | true =>
      cases hb : r.isBad cfg.expectedDelay with
      | false =>
        rw [step_probe_good cfg s r o ha hb]
        split <;> simp
      | true =>
        cases hi : s.isRestarting with
        | true =>
          rw [step_probe_bad_restarting cfg s r o ha hb hi]
          exact ⟨h1, h2⟩
        | false =>
          rw [step_probe_bad_idle cfg s r o ha hb hi]
          split <;> simp
  | daily o =>
    rw [step_daily]
    cases ha : s.checkingActive with
    | false => simp [ha, h2 ha]
    | true => simp [ha]


/-- C1, counterexample: the claim as stated is false.  Under `cxConfigC1`
(`badIncrease = 1`, `goodReduce = 2`), one bad probe followed by one good
probe drives `currentBadCount` from the initial `0` to `-1`: the
good-sample decrement is `currentBadCount -= goodReduce` guarded only by
`currentBadCount > 0`, with no clamp at `0`, so `badScore` leaves the
interval `[0, maxBadCount]`. -/
theorem badScore_goes_negative :
    (runSteps cxConfigC1 initialState
        [Event.probe (ProbeResult.ok 2000) true,
         Event.probe (ProbeResult.ok 100) true]).currentBadCount = -1 ∧
      ¬(0 ≤ (runSteps cxConfigC1 initialState
        [Event.probe (ProbeResult.ok 2000) true,
         Event.probe (ProbeResult.ok 100) true]).currentBadCount) := by
  decide

/-- C1 (amended): for every sequence of probe ticks and daily firings from
the initial state, `badScore` stays within `[1 - goodReduce, maxBadCount)`:
it never reaches `maxBadCount` (it is reset to `0` upon reaching or
exceeding the ceiling), and the good-sample decrement, which is not clamped
at `0`, can take it at most `goodReduce - 1` below zero (so with the
default `goodReduce = 1` it never goes negative). -/
theorem badScore_bounded (cfg : AppConfig) (es : List Event)
    (hmax : 0 < cfg.maxBadCount) (hinc : 0 ≤ cfg.badIncrease)
    (hred : 1 ≤ cfg.goodReduce) :
    1 - cfg.goodReduce ≤ (runSteps cfg initialState es).currentBadCount ∧
      (runSteps cfg initialState es).currentBadCount < cfg.maxBadCount := by
  refine runSteps_invariant cfg
    (fun s => 1 - cfg.goodReduce ≤ s.currentBadCount ∧
      s.currentBadCount < cfg.maxBadCount)
    (step_bounds cfg hmax hinc hred) es initialState ⟨?_, ?_⟩
  · show 1 - cfg.goodReduce ≤ 0
    omega
  · show (0 : Int) < cfg.maxBadCount
    exact hmax

/-- Witness for `badScore_bounded` at the default configuration and a
one-tick trace. -/
theorem badScore_bounded_witness :
    1 - defaultConfig.goodReduce ≤
        (runSteps defaultConfig initialState
          [Event.probe (ProbeResult.ok 2000) true]).currentBadCount ∧
      (runSteps defaultConfig initialState
          [Event.probe (ProbeResult.ok 2000) true]).currentBadCount <
        defaultConfig.maxBadCount :=
  badScore_bounded defaultConfig [Event.probe (ProbeResult.ok 2000) true]
    (by decide) (by decide) (by decide)

/-- C2: on a probe tick while `isRestarting` is false, a measured delay
strictly greater than `expectedDelay` — with a failed probe (infinite
delay) counting as bad against every finite threshold — increments
`badScore` by `badIncrease`; if the result reaches `maxBadCount`, the score
is reset to `0` and the tick continues into `onBadChecked` (the restart
trigger).  With the default `maxBadCount = 10`, `badIncrease = 2` and
threshold `800` ms, five consecutive 2000 ms samples drive the score
`2, 4, 6, 8`, and the fifth sample triggers the restart and leaves the
score at `0` with `isRestarting = true`. -/
theorem bad_sample_scoring (cfg : AppConfig) (s : AppState) (r : ProbeResult)
    (hi : s.isRestarting = false) (hb : r.isBad cfg.expectedDelay = true) :
    (∀ e : Int, ProbeResult.failed.isBad e = true) ∧
    checkingTickBody cfg s r =
      (if s.currentBadCount + cfg.badIncrease ≥ cfg.maxBadCount then
        ({ s with currentBadCount := 0 }, true)
       else
        ({ s with currentBadCount := s.currentBadCount + cfg.badIncrease }, false)) ∧
    (runSteps defaultConfig initialState
      (List.replicate 1 (Event.probe (ProbeResult.ok 2000) true))).currentBadCount = 2 ∧
    (runSteps defaultConfig initialState
      (List.replicate 2 (Event.probe (ProbeResult.ok 2000) true))).currentBadCount = 4 ∧
    (runSteps defaultConfig initialState
      (List.replicate 3 (Event.probe (ProbeResult.ok 2000) true))).currentBadCount = 6 ∧
    (runSteps defaultConfig initialState
      (List.replicate 4 (Event.probe (ProbeResult.ok 2000) true))).currentBadCount = 8 ∧
    (checkingTickBody defaultConfig
      (runSteps defaultConfig initialState
        (List.replicate 4 (Event.probe (ProbeResult.ok 2000) true)))
      (ProbeResult.ok 2000)).2 = true ∧
    runSteps defaultConfig initialState
        (List.replicate 5 (Event.probe (ProbeResult.ok 2000) true)) =
      { currentBadCount := 0, isRestarting := true, checkingActive := true } :=
  ⟨fun _ => rfl, checkingTickBody_bad_idle cfg s r hb hi,
    by decide, by decide, by decide, by decide, by decide, by decide⟩

/-- Witness for `bad_sample_scoring` at the default configuration, the
initial state and a 2000 ms sample. -/
theorem bad_sample_scoring_witness :
    checkingTickBody defaultConfig initialState (ProbeResult.ok 2000) =
      (if initialState.currentBadCount + defaultConfig.badIncrease ≥
          defaultConfig.maxBadCount then
        ({ initialState with currentBadCount := 0 }, true)
       else
        ({ initialState with
            currentBadCount :=
              initialState.currentBadCount + defaultConfig.badIncrease }, false)) :=
  (bad_sample_scoring defaultConfig initialState (ProbeResult.ok 2000)
    rfl (by decide)).2.1

/-- C3: invoking `restartModem` while `isRestarting = true` is a strict
no-op — the state is returned unchanged and `modemUtil.restart()` is not
called — so at most one restart cycle is in flight whichever path
(bad-score or daily schedule) triggered it. -/
theorem restartModem_noop_when_restarting (s : AppState) (o : Bool)
    (h : s.isRestarting = true) :
    restartModem s o = (s, false) := by
  simp [restartModem, h]

/-- Witness for `restartModem_noop_when_restarting` at a concrete
restarting state. -/
theorem restartModem_noop_when_restarting_witness :
    restartModem
        { currentBadCount := 0, isRestarting := true, checkingActive := true } true =
      ({ currentBadCount := 0, isRestarting := true, checkingActive := true }, false) :=
  restartModem_noop_when_restarting
    { currentBadCount := 0, isRestarting := true, checkingActive := true } true rfl

/-- C4: a restart triggered from a non-restarting state invokes the device
restart (second component `true`); after the sequence, `isRestarting`
equals the restart outcome — it remains `true` on success (awaiting a later
good probe) and is cleared to `false` immediately on failure — and checking
has resumed in both cases. -/
theorem triggerRestart_from_idle (s : AppState) (o : Bool)
    (h : s.isRestarting = false) :
    (onBadChecked s o).2 = true ∧
    (onBadChecked s o).1.isRestarting = o ∧
    (onBadChecked s o).1.checkingActive = true := by
  refine ⟨?_, ?_, ?_⟩
  · rw [onBadChecked_snd, h]
    rfl
  · rw [onBadChecked_fst]
    simp [h]
  · rw [onBadChecked_fst]

/-- Witness for `triggerRestart_from_idle` at the initial state with a
failing device restart. -/
theorem triggerRestart_from_idle_witness :
    (onBadChecked initialState false).2 = true ∧
    (onBadChecked initialState false).1.isRestarting = false ∧
    (onBadChecked initialState false).1.checkingActive = true :=
  triggerRestart_from_idle initialState false rfl


/-- C5, counterexample: the floored-at-0 part of the claim is false.
Under `cxConfigC5` (`badIncrease = 3`, `goodReduce = 5`), a bad probe
leaves a strictly positive score `3`, and the following good probe yields
`-2`, not the `0` a floor would give. -/
theorem good_sample_not_floored :
    0 < (runSteps cxConfigC5 initialState
          [Event.probe (ProbeResult.ok 2000) true]).currentBadCount ∧
    (runSteps cxConfigC5 initialState
        [Event.probe (ProbeResult.ok 2000) true,
         Event.probe (ProbeResult.ok 100) true]).currentBadCount = -2 := by
  decide

/-- C5 (amended): on a good probe tick (delay at most `expectedDelay`),
`isRestarting` is always `false` afterwards (the good branch is the only
place the polling path clears it — the bad branch preserves the flag), no
restart is triggered, and a strictly positive `badScore` is decremented by
`goodReduce` with no floor at `0` (the result can go below zero when
`goodReduce` exceeds the current score).  With `goodReduce = 1` and
`badScore = 3`, one good 100 ms sample yields `badScore = 2`. -/
theorem good_sample_scoring (cfg : AppConfig) (s : AppState) (r : ProbeResult)
    (hb : r.isBad cfg.expectedDelay = false) :
    (checkingTickBody cfg s r).1.isRestarting = false ∧
    (checkingTickBody cfg s r).2 = false ∧
    (checkingTickBody cfg s r).1.currentBadCount =
      (if 0 < s.currentBadCount then s.currentBadCount - cfg.goodReduce
       else s.currentBadCount) ∧
    (∀ r2 : ProbeResult, r2.isBad cfg.expectedDelay = true →
      (checkingTickBody cfg s r2).1.isRestarting = s.isRestarting) ∧
    (checkingTickBody defaultConfig
        { currentBadCount := 3, isRestarting := false, checkingActive := true }
        (ProbeResult.ok 100)).1.currentBadCount = 2 := by
  refine ⟨?_, ?_, ?_, ?_, by decide⟩
  · rw [checkingTickBody_good cfg s r hb]
    split <;> rfl
  · rw [checkingTickBody_good cfg s r hb]
  · rw [checkingTickBody_good cfg s r hb]
    split <;> rfl
  · intro r2 h2
    cases hi : s.isRestarting with
    | true =>
      rw [checkingTickBody_bad_restarting cfg s r2 h2 hi]
      exact hi
    | false =>
      rw [checkingTickBody_bad_idle cfg s r2 h2 hi]
      split <;> exact hi

/-- Witness for `good_sample_scoring` at the default configuration, the
initial state and a 100 ms sample. -/
theorem good_sample_scoring_witness :
    (checkingTickBody defaultConfig initialState (ProbeResult.ok 100)).2 = false :=
  (good_sample_scoring defaultConfig initialState (ProbeResult.ok 100)
    (by decide)).2.1

/-- C9: in every reachable state with `isRestarting = true`, a probe tick
leaves `badScore` unchanged: a bad sample returns before the increment, and
a good sample — whose recovery check clears the flag — finds the score at
`0` (every reachable restarting state has a zero score), so its decrement
branch does not fire. -/
theorem restarting_freezes_badScore (cfg : AppConfig) (es : List Event)
    (r : ProbeResult) (o : Bool)
    (h : (runSteps cfg initialState es).isRestarting = true) :
    (step cfg (runSteps cfg initialState es) (Event.probe r o)).currentBadCount =
      (runSteps cfg initialState es).currentBadCount := by
  have hinv :=
    runSteps_invariant cfg
      (fun s => (s.isRestarting = true → s.currentBadCount = 0) ∧
        (s.checkingActive = false → s.currentBadCount = 0))
      (step_restartZero cfg) es initialState (by decide)
  cases ha : (runSteps cfg initialState es).checkingActive with
  | false => rw [step_probe_inactive cfg _ r o ha]
  | true =>
    cases hb : r.isBad cfg.expectedDelay with
    | true => rw [step_probe_bad_restarting cfg _ r o ha hb h]
    | false =>
      rw [step_probe_good cfg _ r o ha hb]
      rw [hinv.1 h]
      simp


/-- Witness for `restarting_freezes_badScore` on a trace of five bad
probes that leaves the monitor restarting. -/
theorem restarting_freezes_badScore_witness :
    (runSteps defaultConfig initialState restartingTrace).isRestarting = true ∧
    (step defaultConfig (runSteps defaultConfig initialState restartingTrace)
        (Event.probe ProbeResult.failed false)).currentBadCount =
      (runSteps defaultConfig initialState restartingTrace).currentBadCount :=
  ⟨by decide,
    restarting_freezes_badScore defaultConfig restartingTrace ProbeResult.failed
      false (by decide)⟩

lemma computeNext_gt (nowDay nowMs targetMs : Int) (h0 : 0 ≤ nowMs)
    (h1 : nowMs < msPerDay) (h2 : 0 ≤ targetMs) :
    nowDay * msPerDay + nowMs < computeNext nowDay nowMs targetMs := by
  simp only [computeNext, msPerDay] at h1 ⊢
  split <;> omega

/-- C6: the daily scheduler arms its timer for the next occurrence of the
configured time-of-day strictly after the current instant: the computed
instant is strictly in the future, it is tomorrow at the configured
time-of-day exactly when that time-of-day has already elapsed (or is now)
today, and today at it otherwise.  With configured time `"03:00"` and
current time 03:05, the next firing is 03:00 on the following day. -/
theorem daily_next_occurrence (nowDay nowMs targetMs : Int) (h0 : 0 ≤ nowMs)
    (h1 : nowMs < msPerDay) (h2 : 0 ≤ targetMs) :
    nowDay * msPerDay + nowMs < computeNext nowDay nowMs targetMs ∧
    (targetMs ≤ nowMs →
      computeNext nowDay nowMs targetMs = (nowDay + 1) * msPerDay + targetMs) ∧
    (nowMs < targetMs →
      computeNext nowDay nowMs targetMs = nowDay * msPerDay + targetMs) ∧
    parseDate "03:00" = (3, 0, 0) ∧
    timeOfDayMs (parseDate "03:00") = 10800000 ∧
    registerRestartEveryDay (some (timeOfDayMs (parseDate "03:00"))) 20000
        11100000 =
      some ((20000 + 1) * msPerDay + timeOfDayMs (parseDate "03:00")) := by
  refine ⟨computeNext_gt nowDay nowMs targetMs h0 h1 h2, ?_, ?_, by decide,
    by decide, by decide⟩
  · intro h
    simp only [computeNext, msPerDay] at h1 ⊢
    split <;> omega
  · intro h
    simp only [computeNext, msPerDay] at h1 ⊢
    split <;> omega

/-- Witness for `daily_next_occurrence` at the 03:00 / 03:05 scenario
instants. -/
theorem daily_next_occurrence_witness :
    (20000 : Int) * msPerDay + 11100000 < computeNext 20000 11100000 10800000 :=
  (daily_next_occurrence 20000 11100000 10800000 (by decide) (by decide)
    (by decide)).1

/-- C10: the daily timer callback re-arms the scheduler after every
firing, for every prior state and every restart outcome — including a
firing suppressed by the `isRestarting` guard — and the re-armed instant is
strictly in the future relative to the firing instant. -/
theorem daily_rearm_always (s : AppState) (o : Bool)
    (targetMs nowDay nowMs : Int) (h0 : 0 ≤ nowMs) (h1 : nowMs < msPerDay)
    (h2 : 0 ≤ targetMs) :
    (dailyFire s o (some targetMs) nowDay nowMs).2 =
      some (computeNext nowDay nowMs targetMs) ∧
    nowDay * msPerDay + nowMs < computeNext nowDay nowMs targetMs :=
  ⟨rfl, computeNext_gt nowDay nowMs targetMs h0 h1 h2⟩

/-- Witness for `daily_rearm_always` at a guard-suppressed firing (state
already restarting, failing outcome). -/
theorem daily_rearm_always_witness :
    (dailyFire { currentBadCount := 0, isRestarting := true, checkingActive := true }
        false (some 10800000) 20000 11100000).2 =
      some (computeNext 20000 11100000 10800000) ∧
    (20000 : Int) * msPerDay + 11100000 < computeNext 20000 11100000 10800000 :=
  daily_rearm_always
    { currentBadCount := 0, isRestarting := true, checkingActive := true }
    false 10800000 20000 11100000 (by decide) (by decide) (by decide)


/-- C8, code evaluated at the failing input: the resolved port is computed
from the protocol alone (`443` iff `https`, else `80`), so options
supplying `port = 8080` with no protocol produce URLs on port `80` in every
step of the restart sequence; the supplied port is discarded, contradicting
both the declared `IModemUtilOptions.port` option and the configured
`IAppConfig.port` that `App` passes through.  The protocol itself does
default to `http` as claimed. -/
theorem modemUtil_port_discarded :
    (∀ o : IModemUtilOptions, (ModemUtil.resolveOptions o).port =
      (if o.protocol = some Protocol.https then 443 else 80)) ∧
    (ModemUtil.resolveOptions portBugOptions).protocol = Protocol.http ∧
    (ModemUtil.resolveOptions portBugOptions).port = 80 ∧
    ¬((ModemUtil.resolveOptions portBugOptions).port = 8080) ∧
    loginPageUrl (ModemUtil.resolveOptions portBugOptions) =
      "http://192.168.1.1:80" ∧
    sessionTokenUrl (ModemUtil.resolveOptions portBugOptions) =
      "http://192.168.1.1:80/web/cmcc/gch/template_user.gch" ∧
    restartCommandUrl (ModemUtil.resolveOptions portBugOptions) =
      "http://192.168.1.1:80/web/cmcc/gch/getpage.gch?pid=1002&nextpage=web%2Fcmcc%2Fgch%2Fiot_advance_setting_t.gch" := by
  exact ⟨fun o => rfl, rfl, rfl, by decide, rfl, rfl, rfl⟩

lemma postRestart_ok (tok : String) (r : FetchResult) :
    postRestart tok r = Except.ok () := by
  cases r <;> rfl

lemma ModemUtil.restart_eq (extractLogin extractSession : String → Option String)
    (env : ModemEnv) :
    ModemUtil.restart extractLogin extractSession env =
      (getFrmLoginToken extractLogin env.loginPage).bind (fun frm =>
        (postLogin frm env.loginPost).bind (fun _ =>
          (getSessionToken extractSession env.sessionPage).bind (fun tok =>
            postRestart tok env.restartPost))) := rfl

lemma postLogin_eq (frm : String) (resp : FetchResult) :
    postLogin frm resp = (fetchStep resp).bind (fun _ => Except.ok ()) := rfl

/-- C7: the final restart-command call never fails — a timeout or
connection error there is absorbed by its empty catch handler, and the
outcome of `restart()` is independent of the response to that call — while
`restart()` succeeds exactly when the three earlier steps (login-token
acquisition, login post, session-token acquisition) all succeed, any
empty-response, non-matching-page or network-level failure among them
surfacing as the single thrown failure. -/
theorem modemRestart_error_contract
    (extractLogin extractSession : String → Option String) (env : ModemEnv)
    (r : FetchResult) (tok : String) :
    postRestart tok r = Except.ok () ∧
    ModemUtil.restart extractLogin extractSession { env with restartPost := r } =
      ModemUtil.restart extractLogin extractSession env ∧
    exceptOk (ModemUtil.restart extractLogin extractSession env) =
      (exceptOk (getFrmLoginToken extractLogin env.loginPage) &&
       exceptOk (fetchStep env.loginPost) &&
       exceptOk (getSessionToken extractSession env.sessionPage)) := by
  refine ⟨postRestart_ok tok r, ?_, ?_⟩
  · rw [ModemUtil.restart_eq, ModemUtil.restart_eq]
    simp only [postRestart_ok]
  · rw [ModemUtil.restart_eq]
    cases h1 : getFrmLoginToken extractLogin env.loginPage with
    | error m => simp [exceptOk, Except.bind]
    | ok frm =>
      simp only [Except.bind]
      rw [postLogin_eq]
      cases h2 : fetchStep env.loginPost with
      | error m => simp [exceptOk, Except.bind]
      | ok body =>
        simp only [Except.bind]
        cases h3 : getSessionToken extractSession env.sessionPage with
        | error m => simp [exceptOk, Except.bind]
        | ok tok2 => simp [exceptOk, Except.bind, postRestart_ok]
